import Mathlib

/-!
Shallow embedding of `ion-ap-client.py` (Ionite/ion-ap-client), a command-line
client for the ion-AP document-exchange API.  Python values that can flow out
of `response.json()` are modelled by `PyVal`; the HTTP layer is an oracle
`HttpResponse` supplied as input; printed lines, issued network calls and the
raised-or-returned outcome of each method are made explicit.
-/

namespace IonAP

/-- Model of the Python values produced by `response.json()` and handled by the
client: `None`, booleans, integers, strings, lists and dicts. -/
inductive PyVal where
  | none
  | bool (b : Bool)
  | int (n : Int)
  | str (s : String)
  | list (xs : List PyVal)
  | dict (kvs : List (String × PyVal))

/-- Python exceptions that the client's code paths can raise. -/
inductive PyError where
  | ionAPClientError (msg : String)
  | configParsingError
  | keyError (k : String)
  | typeError
deriving Repr, DecidableEq

mutual

/-- `json.dumps` rendering of a `PyVal` (one print event per dump). -/
def jsonDumps : PyVal → String
  | .none => "null"
  | .bool b => if b then "true" else "false"
  | .int n => toString n
  | .str s => "\x22" ++ s ++ "\x22"
  | .list xs => "[" ++ jsonDumpsList xs ++ "]"
  | .dict kvs => "\x7b" ++ jsonDumpsDict kvs ++ "\x7d"

/-- Comma-separated rendering of a JSON array body. -/
def jsonDumpsList : List PyVal → String
  | [] => ""
  | [x] => jsonDumps x
  | x :: y :: xs => jsonDumps x ++ ", " ++ jsonDumpsList (y :: xs)

/-- Comma-separated rendering of a JSON object body. -/
def jsonDumpsDict : List (String × PyVal) → String
  | [] => ""
  | [(k, v)] => "\x22" ++ k ++ "\x22: " ++ jsonDumps v
  | (k, v) :: y :: xs =>
      "\x22" ++ k ++ "\x22: " ++ jsonDumps v ++ ", " ++ jsonDumpsDict (y :: xs)

end

mutual

/-- Python `str()` / `"%s" %` conversion of a `PyVal`. -/
def pyToStr : PyVal → String
  | .none => "None"
  | .bool b => if b then "True" else "False"
  | .int n => toString n
  | .str s => s
  | .list xs => "[" ++ pyReprList xs ++ "]"
  | .dict kvs => "\x7b" ++ pyReprDict kvs ++ "\x7d"

/-- Python `repr()` of a `PyVal` (strings quoted). -/
def pyRepr : PyVal → String
  | .str s => "'" ++ s ++ "'"
  | .list xs => "[" ++ pyReprList xs ++ "]"
  | .dict kvs => "\x7b" ++ pyReprDict kvs ++ "\x7d"
  | v => pyToStr' v

/-- `repr` of the scalar values, shared with `pyToStr`. -/
def pyToStr' : PyVal → String
  | .none => "None"
  | .bool b => if b then "True" else "False"
  | .int n => toString n
  | .str s => s
  | .list _ => ""
  | .dict _ => ""

/-- `repr` of the elements of a list. -/
def pyReprList : List PyVal → String
  | [] => ""
  | [x] => pyRepr x
  | x :: y :: xs => pyRepr x ++ ", " ++ pyReprList (y :: xs)

/-- `repr` of the entries of a dict. -/
def pyReprDict : List (String × PyVal) → String
  | [] => ""
  | [(k, v)] => "'" ++ k ++ "': " ++ pyRepr v
  | (k, v) :: y :: xs => "'" ++ k ++ "': " ++ pyRepr v ++ ", " ++ pyReprDict (y :: xs)

end

/-- Python truthiness of a `PyVal` (`if result:`). -/
def truthy : PyVal → Bool
  | .none => false
  | .bool b => b
  | .int n => n != 0
  | .str s => s != ""
  | .list xs => !xs.isEmpty
  | .dict kvs => !kvs.isEmpty

/-- Truthiness of an optional value (`None` from the embedding's `Option`). -/
def truthyOpt : Option PyVal → Bool
  | Option.none => false
  | Option.some v => truthy v

/-- Python `d[k]` on a `PyVal`: `KeyError` on a missing dict key, `TypeError`
when string-subscripting a non-dict. -/
def getItem : PyVal → String → Except PyError PyVal
  | .dict kvs, k =>
      match kvs.lookup k with
      | Option.some v => .ok v
      | Option.none => .error (.keyError k)
  | _, _ => .error .typeError

/-- Python `len(v)`. -/
def pyLen : PyVal → Except PyError Nat
  | .str s => .ok s.length
  | .list xs => .ok xs.length
  | .dict kvs => .ok kvs.length
  | _ => .error .typeError

/-- View a `PyVal` as the list iterated by `for element in elements`
(the client only ever iterates JSON arrays). -/
def asPyList : PyVal → Except PyError (List PyVal)
  | .list xs => .ok xs
  | _ => .error .typeError

/-- View a `PyVal` as the int consumed by a `%d` format. -/
def asPyInt : PyVal → Except PyError Int
  | .int n => .ok n
  | .bool b => .ok (if b then 1 else 0)
  | _ => .error .typeError

/-- Python `dict.__setitem__` on an insertion-ordered assoc list:
update in place when the key exists, append otherwise. -/
def setItem (kvs : List (String × String)) (k v : String) : List (String × String) :=
  match kvs with
  | [] => [(k, v)]
  | (k', v') :: rest =>
      if k' = k then (k', v) :: rest else (k', v') :: setItem rest k v

end IonAP

namespace IonAP

/-- `API_VERSION` constant of the client. -/
def API_VERSION : String := "0.3"

/-- `DEFAULT_BASE_URL` constant of the client. -/
def DEFAULT_BASE_URL : String := "https://test.ion-ap.net/api/"

/-- `DEFAULT_CONFIG_FILE`: the expanded absolute default path.  Its exact
text depends on the user's home directory; only its identity as one fixed
path matters to the client. -/
def DEFAULT_CONFIG_FILE : String := "~/.ion-ap-client.conf"

/-- The `[ionap]` section of the configuration: the two keys the client
reads (`configparser` state after `read_config`). -/
structure ConfigData where
  api_key : String
  api_url : String
deriving Repr, DecidableEq

/-- In-memory state of an `IonAPClient` after `__init__`.  `api_key` is an
`Option` because `request` explicitly guards `self.api_key is None`. -/
structure Client where
  config_file : String
  json_output : Bool
  verbose : Bool
  config : ConfigData
  api_key : Option String
  api_url : String

/-- Oracle for one HTTP exchange: the status code, the outcome of
`response.json()` (`none` models a raised `JSONDecodeError`) and the text
body `response.content.decode('utf-8')`. -/
structure HttpResponse where
  status : Nat
  jsonBody : Option PyVal
  text : String

/-- One network call issued through the `requests` library. -/
structure RequestRecord where
  method : String
  url : String
  data : Option String
  headers : List (String × String)
deriving Repr, DecidableEq

/-- Observable outcome of one call to `IonAPClient.request`: network calls
issued, lines printed, and the returned value (`.error` when a Python
exception is raised). -/
structure ReqOutcome where
  calls : List RequestRecord
  output : List String
  result : Except PyError (Option PyVal)

/-- `IonAPClient.request`: the api-key guard, the default JSON headers, the
authorization-header injection, the verbose redacted diagnostics, the
dispatch on method, and the status-dependent decode of the response. -/
def request (c : Client) (method path : String) (data : Option String)
    (headersArg : Option (List (String × String))) (resp : HttpResponse) :
    ReqOutcome :=
  if c.api_key.isNone || c.api_key == some "<api key>" then
    { calls := [], output := [],
      result := .error (.ionAPClientError "API key not set, please create a configuration file or set an environment variable IONAP_API_KEY") }
  else
    let apiKey := c.api_key.getD ""
    let headers0 := headersArg.getD
      [("Content-Type", "application/json"), ("Accept", "application/json")]
    let headers := setItem headers0 "Authorization" ("Token " ++ apiKey)
    let url := c.api_url ++ path
    let verboseOut : List String :=
      if c.verbose then
        ["Request: " ++ method ++ " " ++ url, "Headers:"] ++
          headers.map (fun kv =>
            if kv.1 = "Authorization" then "  Authorization: Token <api key>"
            else "  " ++ kv.1 ++ ": " ++ kv.2)
      else []
    if method == "GET" || method == "POST" || method == "DELETE" then
      let call : RequestRecord :=
        { method := method, url := url,
          data := if method == "POST" then data else none,
          headers := headers }
      if 200 ≤ resp.status ∧ resp.status < 300 then
        match resp.jsonBody with
        | some j =>
            if c.json_output then
              { calls := [call], output := verboseOut ++ [jsonDumps j],
                result := .ok none }
            else
              { calls := [call], output := verboseOut, result := .ok (some j) }
        | none =>
            { calls := [call], output := verboseOut,
              result := .ok (some (.str resp.text)) }
      else
        { calls := [call],
          output := verboseOut ++ ["Error response: " ++ toString resp.status] ++
            (match resp.jsonBody with
             | some j => [jsonDumps j]
             | none => [resp.text]),
          result := .ok none }
    else
      { calls := [], output := verboseOut,
        result := .error (.ionAPClientError "Did not get a response object from requests library") }

end IonAP

namespace IonAP

/-- View a `PyVal` as the string whose methods (`.replace`) are invoked. -/
def asPyStr : PyVal → Except PyError String
  | .str s => .ok s
  | _ => .error .typeError

/-- `startsWith` on character lists. -/
def listStartsWith : List Char → List Char → Bool
  | _, [] => true
  | [], _ :: _ => false
  | c :: cs, d :: ds => c == d && listStartsWith cs ds

/-- Python `haystack.find(needle) >= 0`: does `needle` occur in
`haystack`. -/
def containsSub (s pat : List Char) : Bool :=
  match s with
  | [] => listStartsWith [] pat
  | c :: rest => listStartsWith (c :: rest) pat || containsSub rest pat

/-- The scheme prefix prepended to bare identifiers in `send_document`. -/
def ID_PREFIX : String := "iso6523-actorid-upis::"

/-- The identifier normalization `send_document` applies to `--sender` and
`--receiver`: when `"::"` does not occur in the identifier, prepend the
`iso6523-actorid-upis::` scheme. -/
def normalizeIdentifier (s : String) : String :=
  if containsSub s.toList "::".toList then s else ID_PREFIX ++ s

/-- Query-parameter construction of `send_document` for one optional
identifier argument (`if args.sender:` skips the falsy `None` and `""`). -/
def idParam (name : String) (arg : Option String) : List String :=
  match arg with
  | none => []
  | some s => if s == "" then [] else [name ++ "=" ++ normalizeIdentifier s]

/-- Same for the non-normalized `process_id` / `document_id` arguments. -/
def plainParam (name : String) (arg : Option String) : List String :=
  match arg with
  | none => []
  | some s => if s == "" then [] else [name ++ "=" ++ s]

/-- The path `send_document` builds: `send/document/` plus the `&`-joined
query parameters when any are present. -/
def send_document_path (sender receiver process_id document_id : Option String) :
    String :=
  let params := idParam "sender" sender ++ idParam "receiver" receiver ++
    plainParam "process_id" process_id ++ plainParam "document_id" document_id
  if params.length > 0 then "send/document/?" ++ String.intercalate "&" params
  else "send/document/"

/-- `IonAPClient.send_document`: POST the document with XML content type to
the constructed path and return the request's result. -/
def send_document (c : Client) (document_data : String)
    (sender receiver process_id document_id : Option String)
    (resp : HttpResponse) : ReqOutcome :=
  request c "POST" (send_document_path sender receiver process_id document_id)
    (some document_data)
    (some [("Content-Type", "application/xml"), ("Accept", "application/json")])
    resp

/-- Observable outcome of one client operation that returns nothing:
network calls, printed lines, raised exception if any. -/
structure ProcOutcome where
  calls : List RequestRecord
  output : List String
  result : Except PyError Unit

/-- Python `print(v)` of a request result (`print(None)` shows `None`). -/
def pyPrintOpt : Option PyVal → String
  | none => "None"
  | some v => pyToStr v

/-- `IonAPClient.send_status_document`: GET with XML accept header, then
print whatever came back. -/
def send_status_document (c : Client) (transaction_id : String)
    (resp : HttpResponse) : ProcOutcome :=
  let ro := request c "GET" ("send/transactions/" ++ transaction_id ++ "/document")
    none (some [("Accept", "application/xml")]) resp
  match ro.result with
  | .error e => ⟨ro.calls, ro.output, .error e⟩
  | .ok document => ⟨ro.calls, ro.output ++ [pyPrintOpt document], .ok ()⟩

/-- `IonAPClient.send_status_delete`: DELETE the transaction, result
discarded. -/
def send_status_delete (c : Client) (transaction_id : String)
    (resp : HttpResponse) : ProcOutcome :=
  let ro := request c "DELETE" ("send/transactions/" ++ transaction_id ++ "/")
    none none resp
  ⟨ro.calls, ro.output, ro.result.map (fun _ => ())⟩

/-- Display-range computation of the list operations: when the page is
non-empty, `first = 1 + page_size * (page - 1)` and
`last = first + n - 1`; otherwise `0` and `0`. -/
def listRange (page page_size : Int) (n : Nat) : Int × Int :=
  if n > 0 then
    (1 + page_size * (page - 1), 1 + page_size * (page - 1) + (n : Int) - 1)
  else (0, 0)

/-- The per-element print loop of a list operation: the lines printed
before any raising element, and the final outcome. -/
def printLoop (fmt : PyVal → Except PyError String) :
    List PyVal → List String × Except PyError Unit
  | [] => ([], .ok ())
  | e :: rest =>
    match fmt e with
    | .error err => ([], .error err)
    | .ok line =>
      let r := printLoop fmt rest
      (line :: r.1, r.2)

/-- One line of `send_status_list`'s output loop. -/
def fmtSendElement (e : PyVal) : Except PyError String := do
  let tid ← getItem e "transaction_id"
  let st ← getItem e "status"
  let cr ← getItem e "created_on"
  return pyToStr tid ++ "\t" ++ pyToStr st ++ "\t" ++ pyToStr cr

/-- Modelled behaviour of `datetime.fromisoformat` composed with `strftime`
on a well-formed ISO-8601 timestamp `YYYY-MM-DDTHH:MM[:SS...][offset]`: the
`%Y-%m-%d` rendering is the first ten characters and the `%H:%M` rendering
is characters eleven to sixteen.  Malformed timestamps, which would raise
`ValueError`, are outside this model. -/
def isoDayTime (date_str : String) : String × String :=
  (date_str.take 10, (date_str.take 16).drop 11)

/-- One line of `receive_list`'s output loop, with the `created_on`
timestamp reformatted through `isoDayTime`. -/
def fmtReceiveElement (e : PyVal) : Except PyError String := do
  let cr ← getItem e "created_on"
  let crs ← asPyStr cr
  let dt := isoDayTime (crs.replace "Z" "+00:00")
  let ds ← getItem e "document_sender"
  let dsn ← getItem e "document_sender_name"
  let dit ← getItem e "document_identification_type"
  let tid ← getItem e "transaction_id"
  let st ← getItem e "status"
  return dt.1 ++ " " ++ dt.2 ++ " " ++ pyToStr ds ++ " " ++ pyToStr dsn ++ " " ++
    pyToStr dit ++ " " ++ pyToStr tid ++ " " ++ pyToStr st

/-- The post-request body shared, line for line, by `send_status_list` and
`receive_list`: extract `results` and `count`, compute and print the
display range, then print the formatted elements. -/
def listBody (ro : ReqOutcome) (page page_size : Int)
    (fmt : PyVal → Except PyError String) : ProcOutcome :=
  match ro.result with
  | .error e => ⟨ro.calls, ro.output, .error e⟩
  | .ok r =>
    if truthyOpt r then
      match r with
      | none => ⟨ro.calls, ro.output, .ok ()⟩
      | some rv =>
        match getItem rv "results" with
        | .error e => ⟨ro.calls, ro.output, .error e⟩
        | .ok elements =>
          match getItem rv "count" with
          | .error e => ⟨ro.calls, ro.output, .error e⟩
          | .ok total =>
            match pyLen elements with
            | .error e => ⟨ro.calls, ro.output, .error e⟩
            | .ok n =>
              let fl := listRange page page_size n
              match asPyInt total with
              | .error e => ⟨ro.calls, ro.output, .error e⟩
              | .ok totalInt =>
                let showing := "Showing " ++ toString fl.1 ++ "-" ++ toString fl.2 ++
                  " of " ++ toString totalInt ++ " transactions"
                match asPyList elements with
                | .error e => ⟨ro.calls, ro.output ++ [showing], .error e⟩
                | .ok xs =>
                  let lp := printLoop fmt xs
                  ⟨ro.calls, ro.output ++ showing :: lp.1, lp.2⟩
    else ⟨ro.calls, ro.output, .ok ()⟩

/-- `IonAPClient.send_status_list`: GET the paged send transactions and
print the display range and the elements. -/
def send_status_list (c : Client) (page page_size : Int)
    (resp : HttpResponse) : ProcOutcome :=
  listBody
    (request c "GET"
      ("send/transactions/?page=" ++ toString page ++ "&page_size=" ++ toString page_size)
      none none resp)
    page page_size fmtSendElement

/-- `IonAPClient.receive_list`: GET the paged receive transactions and
print the display range and the date-formatted elements. -/
def receive_list (c : Client) (page page_size : Int)
    (resp : HttpResponse) : ProcOutcome :=
  listBody
    (request c "GET"
      ("receive/transactions/?page=" ++ toString page ++ "&page_size=" ++ toString page_size)
      none none resp)
    page page_size fmtReceiveElement

end IonAP

namespace IonAP

/-- Python `s.endswith(suffix)`. -/
def pyEndsWith (s suffix : String) : Bool :=
  listStartsWith s.toList.reverse suffix.toList.reverse

/-- Parsed content of a file at a path, as far as `configparser.read` is
concerned: `.good` carries the `[ionap]` keys the file supplies (each
optional), `.bad` is a file whose parse raises a `configparser` parsing
error (for instance text with no section header). -/
inductive ConfFile where
  | good (api_key : Option String) (api_url : Option String)
  | bad
deriving Repr, DecidableEq

/-- One file on disk: parsed content plus permission bits. -/
structure FileEntry where
  content : ConfFile
  mode : Nat
deriving Repr, DecidableEq

/-- The filesystem: a map from paths to files. -/
def FS : Type := String → Option FileEntry

/-- The defaults `read_config` installs before reading any file. -/
def defaultConfig : ConfigData :=
  { api_key := "<api key>", api_url := DEFAULT_BASE_URL }

/-- `IonAPClient.read_config`: resolve the path, install the defaults, then
read and merge the file when it exists (a parse failure raises the
`configparser` error).  Returns the resolved path together with the merged
configuration and the verbose output, or the raised exception. -/
def read_config (config_file : Option String) (verbose : Bool) (fs : FS) :
    String × Except PyError (ConfigData × List String) :=
  let cf := config_file.getD DEFAULT_CONFIG_FILE
  match fs cf with
  | some entry =>
    match entry.content with
    | .bad => (cf, .error .configParsingError)
    | .good k u =>
      (cf, .ok ({ api_key := k.getD defaultConfig.api_key,
                  api_url := u.getD defaultConfig.api_url },
        if verbose then ["Read configuration file " ++ cf] else []))
  | none =>
    (cf, .ok (defaultConfig,
      if verbose then
        ["Configuration file " ++ cf ++ " does not exist, not reading configuration"]
      else []))

/-- `IonAPClient.__init__`: read the configuration, resolve the api key
with environment precedence, and build the versioned api url. -/
def clientInit (config_file : Option String) (json_output verbose : Bool)
    (env_api_key : Option String) (fs : FS) :
    Except PyError (Client × List String) :=
  let rc := read_config config_file verbose fs
  match rc.2 with
  | .error e => .error e
  | .ok (cfg, out) =>
    let key := match env_api_key with
      | some k => k
      | none => cfg.api_key
    let base := if pyEndsWith cfg.api_url "/" then cfg.api_url else cfg.api_url ++ "/"
    .ok ({ config_file := rc.1, json_output := json_output, verbose := verbose,
           config := cfg, api_key := some key,
           api_url := base ++ API_VERSION ++ "/" }, out)

/-- `IonAPClient.write_default_config`: refuse to overwrite an existing
file; otherwise write the in-memory configuration and set mode `0o600`.
Returns the new filesystem and the printed lines. -/
def write_default_config (c : Client) (fs : FS) : FS × List String :=
  match fs c.config_file with
  | some _ =>
    (fs, ["Error: " ++ c.config_file ++ " already exists, not overwriting with defaults"])
  | none =>
    (fun p => if p = c.config_file then
        some { content := .good (some c.config.api_key) (some c.config.api_url),
               mode := 0o600 }
      else fs p,
     ["Default configuration written to " ++ c.config_file])

/-- Which exceptions the `__main__` handler catches
(`except IonAPClientError`). -/
def caughtByMain : PyError → Bool
  | .ionAPClientError _ => true
  | _ => false

/-- The `__main__` boundary around `CommandLine()`: an `IonAPClientError`
is rendered as an `Error:` line; any other exception escapes uncaught. -/
def mainBoundary {α : Type} (r : Except PyError (α × List String)) :
    Except PyError (Option α × List String) :=
  match r with
  | .ok (a, out) => .ok (some a, out)
  | .error (.ionAPClientError m) => .ok (none, ["Error: " ++ m])
  | .error e => .error e

/-- The result handling in `CommandLine.send` after `send_document`
returns: `if result:` print the status/transaction-id line. -/
def sendFollowUp (result : Option PyVal) : List String × Except PyError Unit :=
  if truthyOpt result then
    match result with
    | none => ([], .ok ())
    | some rv =>
      match getItem rv "status" with
      | .error e => ([], .error e)
      | .ok st =>
        match getItem rv "transaction_id" with
        | .error e => ([], .error e)
        | .ok tid =>
          (["Status: " ++ pyToStr st ++ " Transaction id " ++ pyToStr tid], .ok ())
  else ([], .ok ())

end IonAP

namespace IonAP

/-! ### Sample inputs used by closed witnesses and counterexamples -/

/-- A client with a valid api key and quiet flags. -/
def sampleClient : Client :=
  { config_file := "conf", json_output := false, verbose := false,
    config := defaultConfig, api_key := some "k1",
    api_url := "https://test.ion-ap.net/api/0.3/" }

/-- The same client with an empty api key (as produced by
`IONAP_API_KEY=""` or an empty `api_key` config value). -/
def emptyKeyClient : Client :=
  { sampleClient with api_key := some "" }

/-- The same client with the placeholder api key. -/
def placeholderKeyClient : Client :=
  { sampleClient with api_key := some "<api key>" }

/-- The same client with `--json` output enabled. -/
def jsonOutClient : Client :=
  { sampleClient with json_output := true }

/-- The client state after `__init__` against a missing config file at
path `conf` with quiet flags and no environment override. -/
def initialClient : Client :=
  Client.mk "conf" false false defaultConfig (some "<api key>")
    (DEFAULT_BASE_URL ++ API_VERSION ++ "/")

/-- A successful response whose body is not JSON. -/
def respOkText : HttpResponse := { status := 200, jsonBody := none, text := "ok" }

/-- A successful response whose body parses as the JSON object `{"a": 1}`. -/
def respJsonObj : HttpResponse :=
  { status := 200, jsonBody := some (.dict [("a", .int 1)]), text := "\x7b\"a\": 1\x7d" }

/-- A 404 response with a JSON error body. -/
def resp404 : HttpResponse :=
  { status := 404, jsonBody := some (.dict [("detail", .str "Not found.")]),
    text := "\x7b\"detail\": \"Not found.\"\x7d" }

/-- A successful submit response carrying a transaction id and status. -/
def respSubmit : HttpResponse :=
  { status := 200,
    jsonBody := some (.dict [("transaction_id", .str "T123"), ("status", .str "accepted")]),
    text := "" }

/-- One sent-transaction element as the list endpoints return it. -/
def sampleElem : PyVal :=
  .dict [("transaction_id", .str "T1"), ("status", .str "delivered"),
    ("created_on", .str "2021-05-01T12:00:00Z"),
    ("document_sender", .str "0106:1"), ("document_sender_name", .str "Acme"),
    ("document_identification_type", .str "Invoice")]

/-- A one-element page of transactions. -/
def sampleElems : List PyVal := [sampleElem]

/-- A list-response envelope: one element, total count 23. -/
def sampleEnvelope : List (String × PyVal) :=
  [("results", .list sampleElems), ("count", .int 23)]

/-- A successful list response carrying `sampleEnvelope`. -/
def respList : HttpResponse :=
  { status := 200, jsonBody := some (.dict sampleEnvelope), text := "" }

/-- A filesystem holding one malformed config file at path `conf`. -/
def badConfFS : FS := fun p =>
  if p = "conf" then some { content := .bad, mode := 0o644 } else none

/-- The empty filesystem. -/
def emptyFS : FS := fun _ => none

end IonAP

namespace IonAP

/-! ### Helper lemmas shared by the claim proofs -/

/-- A prefix match survives appending to the haystack. -/
theorem listStartsWith_append (pat p s : List Char)
    (h : listStartsWith p pat = true) : listStartsWith (p ++ s) pat = true := by
  induction pat generalizing p with
  | nil => simp [listStartsWith]
  | cons d ds ih =>
    cases p with
    | nil => simp [listStartsWith] at h
    | cons c cs =>
      simp only [listStartsWith, Bool.and_eq_true] at h
      simp only [List.cons_append, listStartsWith, Bool.and_eq_true]
      exact ⟨h.1, ih cs h.2⟩

/-- An occurrence in a prefix is an occurrence in the whole string. -/
theorem containsSub_append_left (p s pat : List Char)
    (h : containsSub p pat = true) : containsSub (p ++ s) pat = true := by
  induction p with
  | nil =>
    cases pat with
    | nil =>
      cases s with
      | nil => simpa using h
      | cons c cs => simp [containsSub, listStartsWith]
    | cons d ds => simp [containsSub, listStartsWith] at h
  | cons c rest ih =>
    simp only [containsSub, Bool.or_eq_true] at h
    simp only [List.cons_append, containsSub, Bool.or_eq_true]
    rcases h with h | h
    · exact Or.inl (listStartsWith_append _ _ _ h)
    · exact Or.inr (ih h)

/-- The verbose header rendering redacts the authorization value, so it
does not depend on which token was injected. -/
theorem redact_setItem (hs : List (String × String)) (v1 v2 : String) :
    (setItem hs "Authorization" v1).map (fun kv =>
        if kv.1 = "Authorization" then "  Authorization: Token <api key>"
        else "  " ++ kv.1 ++ ": " ++ kv.2) =
    (setItem hs "Authorization" v2).map (fun kv =>
        if kv.1 = "Authorization" then "  Authorization: Token <api key>"
        else "  " ++ kv.1 ++ ": " ++ kv.2) := by
  induction hs with
  | nil => simp [setItem]
  | cons kv rest ih =>
    simp only [setItem]
    by_cases h : kv.1 = "Authorization"
    · simp [h]
    · simp [h, ih]

/-- Looking up the key just set by `setItem` yields the new value. -/
theorem setItem_lookup (hs : List (String × String)) (k v : String) :
    (setItem hs k v).lookup k = some v := by
  induction hs with
  | nil => simp [setItem]
  | cons kv rest ih =>
    simp only [setItem]
    by_cases h : kv.1 = k
    · simp [h, List.lookup]
    · have hne : (k == kv.1) = false := by
        simp [beq_eq_false_iff_ne]
        exact fun hh => h hh.symm
      simp [h, List.lookup, hne, ih]

/-- The default base url ends with a slash. -/
theorem default_url_slash : pyEndsWith DEFAULT_BASE_URL "/" = true := by decide

/-- When no config file exists at the resolved path, `__init__` succeeds
with the built-in defaults (placeholder api key, default base url). -/
theorem clientInit_no_file (path : String) (fs : FS) (json_output verbose : Bool)
    (h : fs path = none) :
    clientInit (some path) json_output verbose none fs =
      .ok (Client.mk path json_output verbose defaultConfig (some "<api key>")
          (DEFAULT_BASE_URL ++ API_VERSION ++ "/"),
        if verbose then
          ["Configuration file " ++ path ++ " does not exist, not reading configuration"]
        else []) := by
  simp [clientInit, read_config, h, defaultConfig, default_url_slash]

/-- A quiet GET whose response is a 2xx with a JSON body: one call with the
default headers plus the injected token, no output, the decoded value
returned. -/
theorem request_get_quiet (c : Client) (path : String) (resp : HttpResponse)
    (k : String) (j : PyVal)
    (hk : c.api_key = some k) (hk2 : k ≠ "<api key>") (hv : c.verbose = false)
    (hjo : c.json_output = false) (hst : 200 ≤ resp.status ∧ resp.status < 300)
    (hj : resp.jsonBody = some j) :
    request c "GET" path none none resp =
      ReqOutcome.mk
        [RequestRecord.mk "GET" (c.api_url ++ path) none
          (setItem [("Content-Type", "application/json"), ("Accept", "application/json")]
            "Authorization" ("Token " ++ k))]
        [] (.ok (some j)) := by
  have hguard : (c.api_key.isNone || c.api_key == some "<api key>") = false := by
    rw [hk]
    simp [hk2]
  simp [request, hguard, hst, hv, hjo, hj, hk, hk2]

end IonAP

namespace IonAP

/-! ### C1 -/

/-- C1 counterexample: with a resolved api key equal to the empty string,
`request` does not fail before the network: it issues one network call and
returns the response normally, contrary to the claim that an empty api key
fails with `AuthError` and issues zero network calls. -/
theorem C1_empty_key_not_rejected :
    emptyKeyClient.api_key = some "" ∧
    (request emptyKeyClient "GET" "send/transactions/" none none respOkText).calls.length
      = 1 ∧
    (request emptyKeyClient "GET" "send/transactions/" none none respOkText).result =
      .ok (some (.str "ok")) := by
  exact ⟨rfl, rfl, rfl⟩

/-- C1 (amended): when the resolved api key is absent (`None`) or equal to
the placeholder `<api key>`, every operation's `request` raises
`IonAPClientError` before any network call: zero calls are issued and
nothing is printed.  (An empty api key is not rejected.) -/
theorem C1_auth_guard (c : Client) (method path : String) (data : Option String)
    (headersArg : Option (List (String × String))) (resp : HttpResponse)
    (h : c.api_key = none ∨ c.api_key = some "<api key>") :
    (request c method path data headersArg resp).calls = [] ∧
    (request c method path data headersArg resp).output = [] ∧
    (request c method path data headersArg resp).result =
      .error (.ionAPClientError "API key not set, please create a configuration file or set an environment variable IONAP_API_KEY") := by
  rcases h with h | h <;> simp [request, h]

/-- Witness for C1 at the placeholder api key. -/
theorem C1_auth_guard_witness :
    (request placeholderKeyClient "GET" "p" none none respOkText).calls = [] ∧
    (request placeholderKeyClient "GET" "p" none none respOkText).output = [] ∧
    (request placeholderKeyClient "GET" "p" none none respOkText).result =
      .error (.ionAPClientError "API key not set, please create a configuration file or set an environment variable IONAP_API_KEY") :=
  C1_auth_guard placeholderKeyClient "GET" "p" none none respOkText (Or.inr rfl)

/-! ### C2 -/

/-- C2 counterexample: a successful document retrieval (XML negotiation)
whose body happens to parse as JSON gets the decoded JSON value, not the
raw text — `send_status_document` prints the Python rendering of the dict,
which differs from the raw body — so the JSON decode is attempted
regardless of the negotiated content type. -/
theorem C2_xml_negotiation_still_decodes :
    (request sampleClient "GET" "send/transactions/T1/document" none
        (some [("Accept", "application/xml")]) respJsonObj).result =
      .ok (some (.dict [("a", .int 1)])) ∧
    (send_status_document sampleClient "T1" respJsonObj).output = ["\x7b'a': 1\x7d"] ∧
    respJsonObj.text = "\x7b\"a\": 1\x7d" ∧
    ("\x7b'a': 1\x7d" : String) ≠ "\x7b\"a\": 1\x7d" := by
  exact ⟨rfl, rfl, rfl, by decide⟩

/-- C2 (amended): on every successful (2xx) response a JSON decode is
attempted regardless of the requested content negotiation; when it
succeeds the decoded value is used (returned, or — under json output —
printed with `None` returned), and only when it fails is the raw text body
returned.  There is no decode-free path for XML/binary retrievals. -/
theorem C2_success_decode (c : Client) (method path : String) (data : Option String)
    (headersArg : Option (List (String × String))) (resp : HttpResponse)
    (k : String) (hk : c.api_key = some k) (hk2 : k ≠ "<api key>")
    (hm : method = "GET" ∨ method = "POST" ∨ method = "DELETE")
    (hst : 200 ≤ resp.status ∧ resp.status < 300) :
    (request c method path data headersArg resp).result =
      .ok (match resp.jsonBody with
        | some j => if c.json_output then none else some j
        | none => some (.str resp.text)) := by
  have hguard : (c.api_key.isNone || c.api_key == some "<api key>") = false := by
    rw [hk]
    simp [hk2]
  rcases hm with hm | hm | hm <;> subst hm <;>
    simp only [request, hguard, Bool.false_eq_true, if_false] <;>
    rw [if_pos hst] <;>
    cases hj : resp.jsonBody <;>
    cases hjo : c.json_output <;>
    simp [hj, hjo]

/-- Witness for C2 on an XML-negotiated GET whose body is not JSON. -/
theorem C2_success_decode_witness :
    (request sampleClient "GET" "send/transactions/T1/document" none
        (some [("Accept", "application/xml")]) respOkText).result =
      .ok (match respOkText.jsonBody with
        | some j => if sampleClient.json_output then none else some j
        | none => some (.str respOkText.text)) :=
  C2_success_decode sampleClient "GET" "send/transactions/T1/document" none
    (some [("Accept", "application/xml")]) respOkText "k1" rfl (by decide)
    (Or.inl rfl) (by decide)

/-! ### C3 -/

/-- C3: on a response with status outside `[200, 300)` no exception is
raised to the caller: the request returns `None`, and the status and the
body (decoded as JSON when possible, the raw text otherwise) are surfaced
in the printed output; in particular `send_status_delete` of a nonexistent
id completes without raising. -/
theorem C3_remote_error (c : Client) (tid method path : String) (data : Option String)
    (headersArg : Option (List (String × String))) (resp : HttpResponse)
    (k : String) (hk : c.api_key = some k) (hk2 : k ≠ "<api key>")
    (hv : c.verbose = false)
    (hm : method = "GET" ∨ method = "POST" ∨ method = "DELETE")
    (hst : ¬ (200 ≤ resp.status ∧ resp.status < 300)) :
    (request c method path data headersArg resp).result = .ok none ∧
    (request c method path data headersArg resp).output =
      ("Error response: " ++ toString resp.status) ::
        (match resp.jsonBody with
         | some j => [jsonDumps j]
         | none => [resp.text]) ∧
    (send_status_delete c tid resp).result = .ok () := by
  have hguard : (c.api_key.isNone || c.api_key == some "<api key>") = false := by
    rw [hk]
    simp [hk2]
  refine ⟨?_, ?_, ?_⟩
  · rcases hm with hm | hm | hm <;> subst hm <;>
      simp only [request, hguard, Bool.false_eq_true, if_false] <;>
      rw [if_neg hst] <;> simp
  · rcases hm with hm | hm | hm <;> subst hm <;>
      simp only [request, hguard, Bool.false_eq_true, if_false] <;>
      rw [if_neg hst] <;> cases hj : resp.jsonBody <;> simp [hv, hj]
  · simp only [send_status_delete, request, hguard, Bool.false_eq_true, if_false]
    rw [if_neg hst]
    rfl

/-- Witness for C3: deleting a nonexistent id against a 404 with a JSON
body. -/
theorem C3_remote_error_witness :
    (request sampleClient "DELETE" "send/transactions/TX/" none none resp404).result
      = .ok none ∧
    (request sampleClient "DELETE" "send/transactions/TX/" none none resp404).output =
      ("Error response: " ++ toString resp404.status) ::
        (match resp404.jsonBody with
         | some j => [jsonDumps j]
         | none => [resp404.text]) ∧
    (send_status_delete sampleClient "TX" resp404).result = .ok () :=
  C3_remote_error sampleClient "TX" "DELETE" "send/transactions/TX/" none none resp404
    "k1" rfl (by decide) rfl (Or.inr (Or.inr rfl)) (by decide)

end IonAP

namespace IonAP

/-! ### C4 -/

/-- C4 counterexample: a config file that exists but cannot be parsed makes
`__init__` raise the `configparser` parsing error, which is not an
`IonAPClientError` and therefore escapes the `__main__` handler uncaught —
contrary to the claim that parse failures surface as a typed `ConfigError`
outcome with no uncaught platform exception. -/
theorem C4_parse_failure_uncaught :
    badConfFS "conf" = some { content := ConfFile.bad, mode := 0o644 } ∧
    mainBoundary (clientInit (some "conf") false false none badConfFS) =
      .error .configParsingError ∧
    caughtByMain .configParsingError = false := by
  exact ⟨rfl, rfl, rfl⟩

/-- C4 (amended): when no file exists at the path, credential resolution
succeeds with the built-in defaults (placeholder api key, default base
url); when a file exists but cannot be parsed, the `configparser` parsing
exception is raised and escapes the `__main__` boundary uncaught, since
only `IonAPClientError` is handled there. -/
theorem C4_config_resolution (path : String) (fs : FS) (json_output verbose : Bool) :
    (fs path = none →
      clientInit (some path) json_output verbose none fs =
        .ok (Client.mk path json_output verbose defaultConfig (some "<api key>")
            (DEFAULT_BASE_URL ++ API_VERSION ++ "/"),
          if verbose then
            ["Configuration file " ++ path ++ " does not exist, not reading configuration"]
          else [])) ∧
    (∀ entry, fs path = some entry → entry.content = .bad →
      clientInit (some path) json_output verbose none fs = .error .configParsingError ∧
      mainBoundary (clientInit (some path) json_output verbose none fs) =
        .error .configParsingError ∧
      caughtByMain .configParsingError = false) := by
  constructor
  · exact clientInit_no_file path fs json_output verbose
  · intro entry h hbad
    have hcl : clientInit (some path) json_output verbose none fs =
        .error .configParsingError := by
      simp [clientInit, read_config, h, hbad]
    exact ⟨hcl, by rw [hcl]; rfl, rfl⟩

/-- Witness for C4 at the empty filesystem and at a malformed file. -/
theorem C4_config_resolution_witness :
    clientInit (some "conf") false false none emptyFS =
      .ok (Client.mk "conf" false false defaultConfig (some "<api key>")
          (DEFAULT_BASE_URL ++ API_VERSION ++ "/"),
        if false then
          ["Configuration file " ++ "conf" ++ " does not exist, not reading configuration"]
        else []) ∧
    clientInit (some "conf") false false none badConfFS = .error .configParsingError :=
  ⟨(C4_config_resolution "conf" emptyFS false false).1 rfl,
   ((C4_config_resolution "conf" badConfFS false false).2
      { content := .bad, mode := 0o644 } rfl rfl).1⟩

/-! ### C5 -/

/-- C5: identifier normalization in `send_document` is idempotent — an
identifier containing `::` is returned unchanged, a bare identifier gets
the `iso6523-actorid-upis::` prefix, and re-normalizing any normalized
identifier is a no-op. -/
theorem C5_normalize_idempotent (s : String) :
    normalizeIdentifier (normalizeIdentifier s) = normalizeIdentifier s ∧
    (containsSub s.toList "::".toList = true → normalizeIdentifier s = s) ∧
    (containsSub s.toList "::".toList = false →
      normalizeIdentifier s = ID_PREFIX ++ s) := by
  by_cases h : containsSub s.toList "::".toList = true
  · have hn : normalizeIdentifier s = s := by
      unfold normalizeIdentifier
      rw [if_pos h]
    refine ⟨by rw [hn, hn], fun _ => hn, fun hf => ?_⟩
    rw [h] at hf
    cases hf
  · have hn : normalizeIdentifier s = ID_PREFIX ++ s := by
      unfold normalizeIdentifier
      rw [if_neg h]
    have hpre : containsSub (ID_PREFIX ++ s).toList "::".toList = true := by
      have hsplit : (ID_PREFIX ++ s).toList = ID_PREFIX.toList ++ s.toList :=
        String.data_append ID_PREFIX s
      rw [hsplit]
      exact containsSub_append_left _ _ _ (by decide)
    have hn2 : normalizeIdentifier (ID_PREFIX ++ s) = ID_PREFIX ++ s := by
      unfold normalizeIdentifier
      rw [if_pos hpre]
    exact ⟨by rw [hn, hn2], fun ht => absurd ht h, fun _ => hn⟩

/-- Witness for C5 at the bare identifier from the spec's example. -/
theorem C5_normalize_idempotent_witness :
    normalizeIdentifier (normalizeIdentifier "0106:12345678") =
      normalizeIdentifier "0106:12345678" ∧
    containsSub "0106:12345678".toList "::".toList = false ∧
    normalizeIdentifier "0106:12345678" = "iso6523-actorid-upis::0106:12345678" := by
  refine ⟨(C5_normalize_idempotent "0106:12345678").1, by decide, ?_⟩
  rw [(C5_normalize_idempotent "0106:12345678").2.2 (by decide)]
  rfl

end IonAP

namespace IonAP

/-! ### C6 -/

/-- C6: for a list call (send or receive) whose 2xx response carries a
`results` list and a `count`, the printed display range satisfies
`first = page_size * (page - 1) + 1` and `last = first + n - 1` for a
non-empty page of `n` items, `first = last = 0` for an empty page, and the
reported total is the envelope's `count` field. -/
theorem C6_list_display_range (c : Client) (page page_size total : Int) (k : String)
    (xs : List PyVal) (kvs : List (String × PyVal)) (resp : HttpResponse)
    (hk : c.api_key = some k) (hk2 : k ≠ "<api key>")
    (hv : c.verbose = false) (hjo : c.json_output = false)
    (hst : 200 ≤ resp.status ∧ resp.status < 300)
    (hjson : resp.jsonBody = some (.dict kvs))
    (hres : kvs.lookup "results" = some (.list xs))
    (hcnt : kvs.lookup "count" = some (.int total))
    (hpage : 1 ≤ page) (hps : 0 ≤ page_size) :
    (send_status_list c page page_size resp).output =
      ("Showing " ++ toString (listRange page page_size xs.length).1 ++ "-" ++
        toString (listRange page page_size xs.length).2 ++ " of " ++
        toString total ++ " transactions") :: (printLoop fmtSendElement xs).1 ∧
    (receive_list c page page_size resp).output =
      ("Showing " ++ toString (listRange page page_size xs.length).1 ++ "-" ++
        toString (listRange page page_size xs.length).2 ++ " of " ++
        toString total ++ " transactions") :: (printLoop fmtReceiveElement xs).1 ∧
    (listRange page page_size xs.length).1 =
      (if xs.length = 0 then 0 else page_size * (page - 1) + 1) ∧
    (listRange page page_size xs.length).2 =
      (if xs.length = 0 then 0
       else (page_size * (page - 1) + 1) + (xs.length : Int) - 1) := by
  have hne : kvs ≠ [] := by
    intro hcon
    subst hcon
    simp [List.lookup] at hres
  refine ⟨?_, ?_, ?_, ?_⟩
  · rw [send_status_list,
      request_get_quiet c _ resp k _ hk hk2 hv hjo hst hjson]
    simp [listBody, truthyOpt, truthy, hne, getItem, hres, hcnt, pyLen, asPyInt, asPyList]
  · rw [receive_list,
      request_get_quiet c _ resp k _ hk hk2 hv hjo hst hjson]
    simp [listBody, truthyOpt, truthy, hne, getItem, hres, hcnt, pyLen, asPyInt, asPyList]
  · cases hlen : xs.length with
    | zero => simp [listRange]
    | succ m =>
      simp [listRange]
      ring
  · cases hlen : xs.length with
    | zero => simp [listRange]
    | succ m =>
      simp [listRange]
      ring

/-- Witness for C6: page 1 of size 10 against a one-element page with
total 23. -/
theorem C6_list_display_range_witness :
    (send_status_list sampleClient 1 10 respList).output =
      ("Showing " ++ toString (listRange 1 10 sampleElems.length).1 ++ "-" ++
        toString (listRange 1 10 sampleElems.length).2 ++ " of " ++
        toString (23 : Int) ++ " transactions") :: (printLoop fmtSendElement sampleElems).1 ∧
    (receive_list sampleClient 1 10 respList).output =
      ("Showing " ++ toString (listRange 1 10 sampleElems.length).1 ++ "-" ++
        toString (listRange 1 10 sampleElems.length).2 ++ " of " ++
        toString (23 : Int) ++ " transactions") :: (printLoop fmtReceiveElement sampleElems).1 ∧
    (listRange 1 10 sampleElems.length).1 =
      (if sampleElems.length = 0 then 0 else 10 * (1 - 1) + 1) ∧
    (listRange 1 10 sampleElems.length).2 =
      (if sampleElems.length = 0 then 0
       else (10 * ((1 : Int) - 1) + 1) + (sampleElems.length : Int) - 1) :=
  C6_list_display_range sampleClient 1 10 23 "k1" sampleElems sampleEnvelope respList
    rfl (by decide) rfl rfl (by decide) rfl rfl rfl (by decide) (by decide)

/-! ### C7 -/

/-- C7: round trip — when no config file exists at the path,
`write_default_config` after `__init__` creates the file with the
placeholder credentials, and resolving credentials again from the written
file with no environment override yields exactly the placeholder api key
and the default base url. -/
theorem C7_write_then_resolve (path : String) (fs : FS) (json_output verbose : Bool)
    (h : fs path = none) (c : Client) (out : List String)
    (hc : clientInit (some path) json_output verbose none fs = .ok (c, out)) :
    (write_default_config c fs).1 path =
      some { content := .good (some "<api key>") (some DEFAULT_BASE_URL), mode := 0o600 } ∧
    ∃ c2 out2,
      clientInit (some path) json_output verbose none (write_default_config c fs).1 =
        .ok (c2, out2) ∧
      c2.api_key = some "<api key>" ∧
      c2.config.api_url = DEFAULT_BASE_URL := by
  have hinit := clientInit_no_file path fs json_output verbose h
  obtain ⟨hc1, hc2⟩ : _ ∧ _ := by
    have hh := hinit.symm.trans hc
    simpa using hh
  subst hc1
  constructor
  · simp [write_default_config, h, defaultConfig]
  · refine ⟨Client.mk path json_output verbose ⟨"<api key>", DEFAULT_BASE_URL⟩
        (some "<api key>") (DEFAULT_BASE_URL ++ API_VERSION ++ "/"),
      (if verbose then ["Read configuration file " ++ path] else []), ?_, rfl, rfl⟩
    simp [clientInit, read_config, write_default_config, h, defaultConfig, default_url_slash]

/-- Witness for C7 on the empty filesystem. -/
theorem C7_write_then_resolve_witness :
    (write_default_config initialClient emptyFS).1 "conf" =
      some { content := .good (some "<api key>") (some DEFAULT_BASE_URL), mode := 0o600 } ∧
    ∃ c2 out2,
      clientInit (some "conf") false false none (write_default_config initialClient emptyFS).1 =
        .ok (c2, out2) ∧
      c2.api_key = some "<api key>" ∧
      c2.config.api_url = DEFAULT_BASE_URL :=
  C7_write_then_resolve "conf" emptyFS false false rfl initialClient [] rfl

end IonAP

namespace IonAP

/-! ### C8 -/

/-- C8: `write_default_config` never overwrites — when the target exists
the filesystem is returned unchanged and the already-exists error is
printed; when the target does not exist, the freshly initialized client
writes a file with the placeholder credentials and mode `0o600`, leaving
every other path untouched. -/
theorem C8_no_overwrite (path : String) (fs : FS) (json_output verbose : Bool) :
    (∀ (c : Client), c.config_file = path → ∀ entry, fs path = some entry →
      (write_default_config c fs).1 = fs ∧
      (write_default_config c fs).2 =
        ["Error: " ++ path ++ " already exists, not overwriting with defaults"]) ∧
    (fs path = none → ∀ c out,
      clientInit (some path) json_output verbose none fs = .ok (c, out) →
      (write_default_config c fs).1 path =
        some { content := .good (some "<api key>") (some DEFAULT_BASE_URL), mode := 0o600 } ∧
      (∀ p, p ≠ path → (write_default_config c fs).1 p = fs p) ∧
      (write_default_config c fs).2 = ["Default configuration written to " ++ path]) := by
  constructor
  · intro c hcf entry hentry
    constructor
    · simp [write_default_config, hcf, hentry]
    · simp [write_default_config, hcf, hentry]
  · intro h c out hc
    have hinit := clientInit_no_file path fs json_output verbose h
    obtain ⟨hc1, hc2⟩ : _ ∧ _ := by
      have hh := hinit.symm.trans hc
      simpa using hh
    subst hc1
    refine ⟨?_, ?_, ?_⟩
    · simp [write_default_config, h, defaultConfig]
    · intro p hp
      simp only [write_default_config, h]
      rw [if_neg hp]
    · simp [write_default_config, h]

/-- Witness for C8: an existing file is left unchanged; a missing file is
created with the placeholder credentials and mode `0o600`. -/
theorem C8_no_overwrite_witness :
    ((write_default_config placeholderKeyClient badConfFS).1 = badConfFS ∧
      (write_default_config placeholderKeyClient badConfFS).2 =
        ["Error: " ++ "conf" ++ " already exists, not overwriting with defaults"]) ∧
    ((write_default_config initialClient emptyFS).1 "conf" =
        some { content := .good (some "<api key>") (some DEFAULT_BASE_URL), mode := 0o600 } ∧
      (∀ p, p ≠ "conf" → (write_default_config initialClient emptyFS).1 p = emptyFS p) ∧
      (write_default_config initialClient emptyFS).2 =
        ["Default configuration written to " ++ "conf"]) :=
  ⟨(C8_no_overwrite "conf" badConfFS false false).1 placeholderKeyClient rfl
      { content := .bad, mode := 0o644 } rfl,
   (C8_no_overwrite "conf" emptyFS false false).2 rfl initialClient [] rfl⟩

/-! ### C9 -/

/-- C9: every issued request carries the `Authorization: Token <key>`
header built from the resolved api key, and the printed output (verbose
diagnostics included) of two runs that differ only in the api key is
identical — the authorization line is redacted to the fixed placeholder. -/
theorem C9_token_redaction (c : Client) (k1 k2 : String)
    (h1 : k1 ≠ "<api key>") (h2 : k2 ≠ "<api key>")
    (method path : String) (data : Option String)
    (headersArg : Option (List (String × String))) (resp : HttpResponse) :
    (request { c with api_key := some k1 } method path data headersArg resp).output =
      (request { c with api_key := some k2 } method path data headersArg resp).output ∧
    (∀ call ∈ (request { c with api_key := some k1 } method path data headersArg resp).calls,
      call.headers.lookup "Authorization" = some ("Token " ++ k1)) := by
  constructor
  · simp only [request, Option.isNone_some, Bool.false_or]
    have g1 : ((some k1 : Option String) == some "<api key>") = false := by
      simp [h1]
    have g2 : ((some k2 : Option String) == some "<api key>") = false := by
      simp [h2]
    simp only [g1, g2, Bool.false_eq_true, if_false]
    by_cases hv : c.verbose <;>
      by_cases hm : (method == "GET" || method == "POST" || method == "DELETE") = true <;>
      by_cases hst : 200 ≤ resp.status ∧ resp.status < 300 <;>
      cases hj : resp.jsonBody <;>
      by_cases hjo : c.json_output <;>
      simp [hv, hm, hst, hj, hjo] <;>
      exact redact_setItem _ _ _
  · intro call hcall
    simp only [request, Option.isNone_some, Bool.false_or] at hcall
    have g1 : ((some k1 : Option String) == some "<api key>") = false := by
      simp [h1]
    simp only [g1, Bool.false_eq_true, if_false] at hcall
    by_cases hm : (method == "GET" || method == "POST" || method == "DELETE") = true
    · by_cases hst : 200 ≤ resp.status ∧ resp.status < 300
      · cases hj : resp.jsonBody with
        | none =>
          simp [hm, hst, hj] at hcall
          subst hcall
          exact setItem_lookup _ _ _
        | some j =>
          by_cases hjo : c.json_output <;> simp [hm, hst, hj, hjo] at hcall <;>
            subst hcall <;> exact setItem_lookup _ _ _
      · simp [hm, hst] at hcall
        subst hcall
        exact setItem_lookup _ _ _
    · simp [hm] at hcall

/-- Witness for C9: two verbose runs differing only in the api key. -/
theorem C9_token_redaction_witness :
    (request { sampleClient with api_key := some "k1" } "GET" "p" none none respOkText).output =
      (request { sampleClient with api_key := some "k2" } "GET" "p" none none respOkText).output ∧
    (∀ call ∈ (request { sampleClient with api_key := some "k1" } "GET" "p" none none
        respOkText).calls,
      call.headers.lookup "Authorization" = some ("Token " ++ "k1")) :=
  C9_token_redaction sampleClient "k1" "k2" (by decide) (by decide) "GET" "p" none none
    respOkText

/-! ### C10 -/

/-- C10: with json output enabled, a successful submit whose body decodes
as JSON prints the JSON and makes `request` return `None`, so
`CommandLine.send`'s own result handling (`if result:` printing the
status/transaction-id line) is skipped even though the operation issued
its call and succeeded. -/
theorem C10_json_output_swallows_result (c : Client) (k document_data : String)
    (sender receiver process_id document_id : Option String)
    (resp : HttpResponse) (j : PyVal)
    (hk : c.api_key = some k) (hk2 : k ≠ "<api key>")
    (hv : c.verbose = false) (hjo : c.json_output = true)
    (hst : 200 ≤ resp.status ∧ resp.status < 300)
    (hj : resp.jsonBody = some j) :
    (send_document c document_data sender receiver process_id document_id resp).result =
      .ok none ∧
    (send_document c document_data sender receiver process_id document_id resp).output =
      [jsonDumps j] ∧
    (send_document c document_data sender receiver process_id document_id resp).calls.length
      = 1 ∧
    sendFollowUp none = ([], .ok ()) := by
  have hguard : (c.api_key.isNone || c.api_key == some "<api key>") = false := by
    rw [hk]
    simp [hk2]
  refine ⟨?_, ?_, ?_, rfl⟩ <;>
    simp [send_document, request, hguard, hst, hv, hjo, hj]

/-- Witness for C10: a json-output submit against a successful response
with a transaction id and status. -/
theorem C10_json_output_swallows_result_witness :
    (send_document jsonOutClient "<Invoice/>" none none none none respSubmit).result =
      .ok none ∧
    (send_document jsonOutClient "<Invoice/>" none none none none respSubmit).output =
      [jsonDumps (.dict [("transaction_id", .str "T123"), ("status", .str "accepted")])] ∧
    (send_document jsonOutClient "<Invoice/>" none none none none respSubmit).calls.length
      = 1 ∧
    sendFollowUp none = ([], .ok ()) :=
  C10_json_output_swallows_result jsonOutClient "k1" "<Invoice/>" none none none none
    respSubmit (.dict [("transaction_id", .str "T123"), ("status", .str "accepted")])
    rfl (by decide) rfl rfl (by decide) rfl

end IonAP
